import Mathlib

/-!
Shallow embedding of the grid-windowing and export pipeline of
`dems/make_dems.py` and of the solver-configuration generator
`sif_template.py`, together with theorems settling the specified
properties of both.

Cell values are embedded as `Int`: the only operations the pipeline
performs on a cell value are the exact comparison against the
missing-value sentinel and rendering the value to text, and both are
modelled exactly on `Int` (`toString` stands for the default
value-to-text conversion of the implementation language).
-/

namespace MakeDems

/-- The missing-value sentinel `-2.0e+9` used at line 56 of
`make_dems.py`, embedded as an integer. -/
def sentinel : Int := -2000000000

/-- Four inclusive bounding-box indices `(imin, imax, jmin, jmax)` as
computed at lines 57-58 of `make_dems.py`.  They are signed: the source
applies the margin without clamping, so they can be negative. -/
structure BoundingBox where
  i_min : Int
  i_max : Int
  j_min : Int
  j_max : Int
deriving DecidableEq

/-- Cell `(i, j)` of `A` holds a valid measurement: it exists and differs
from the sentinel (the test `vx != -2.0e+9` at line 56 of
`make_dems.py`).  Reading out of range yields the sentinel default and
hence counts as not valid. -/
def ValidAt (A : List (List Int)) (s : Int) (i j : Nat) : Prop :=
  (A.getD i []).getD j s ≠ s

instance decValidAt (A : List (List Int)) (s : Int) (i j : Nat) :
    Decidable (ValidAt A s i j) :=
  inferInstanceAs (Decidable ((A.getD i []).getD j s ≠ s))

/-- Row `i` contains at least one valid cell. -/
def RowValid (A : List (List Int)) (s : Int) (i : Nat) : Prop :=
  ∃ j, ValidAt A s i j

/-- Column `j` contains at least one valid cell. -/
def ColValid (A : List (List Int)) (s : Int) (j : Nat) : Prop :=
  ∃ i, ValidAt A s i j

/-- `A` is a rectangular `ny × nx` array. -/
def isMatrix (A : List (List Int)) (ny nx : Nat) : Prop :=
  A.length = ny ∧ ∀ row ∈ A, row.length = nx

instance decIsMatrix (A : List (List Int)) (ny nx : Nat) :
    Decidable (isMatrix A ny nx) :=
  inferInstanceAs (Decidable (A.length = ny ∧ ∀ row ∈ A, row.length = nx))

/-- The coordinate list produced by `np.where(vx != sentinel)` at line 56,
in row-major order: `(i, j)` is listed iff cell `(i, j)` is valid. -/
def npWhere (A : List (List Int)) (s : Int) : List (Nat × Nat) :=
  ((List.range A.length).map (fun i =>
    (List.range (A.getD i []).length).filterMap (fun j =>
      if (A.getD i []).getD j s ≠ s then some (i, j) else none))).flatten

/-- The builtin `min` of Python over a sequence of indices: `none` models
the `ValueError` raised on an empty sequence. -/
def pyMin : List Nat → Option Nat
  | [] => none
  | x :: xs => some (xs.foldl min x)

/-- The builtin `max` of Python over a sequence of indices: `none` models
the `ValueError` raised on an empty sequence. -/
def pyMax : List Nat → Option Nat
  | [] => none
  | x :: xs => some (xs.foldl max x)

/-- Lines 56-58 of `make_dems.py`: `(I, J) = np.where(vx != sentinel)`;
`(imin, imax) = (min(I) - margin, max(I) + margin)` and likewise for `J`
from the column indices (the source fixes `margin = 2`).  `none` models
the `ValueError` that the builtin `min` raises when the grid holds no
valid cell at all. -/
def detect (A : List (List Int)) (s : Int) (margin : Int) :
    Option BoundingBox :=
  let idx := npWhere A s
  match pyMin (idx.map Prod.fst), pyMax (idx.map Prod.fst),
        pyMin (idx.map Prod.snd), pyMax (idx.map Prod.snd) with
  | some imin, some imax, some jmin, some jmax =>
      some ⟨(imin : Int) - margin, (imax : Int) + margin,
            (jmin : Int) - margin, (jmax : Int) + margin⟩
  | _, _, _, _ => none

/-- Normalization of one Python slice endpoint against length `n`:
a negative endpoint counts from the end, and endpoints are clamped into
`[0, n]` (CPython and numpy basic-slicing semantics). -/
def pyBound (n : Nat) (a : Int) : Nat :=
  if a < 0 then (a + n).toNat else min a.toNat n

/-- Python slicing `l[a:b]`: the elements at positions `pyBound a ≤ k <
pyBound b`. -/
def pySlice (l : List α) (a b : Int) : List α :=
  (l.take (pyBound l.length b)).drop (pyBound l.length a)

/-- Lines 61-64 of `make_dems.py`: `vx[imin:imax+1, jmin:jmax+1]`, numpy
basic slicing applied to both axes. -/
def slice2 (A : List (List α)) (b : BoundingBox) : List (List α) :=
  (pySlice A b.i_min (b.i_max + 1)).map
    (fun row => pySlice row b.j_min (b.j_max + 1))

/-- Line 66 of `make_dems.py`: `x = x[jmin : jmax+1]`. -/
def cropX (x : List Int) (b : BoundingBox) : List Int :=
  pySlice x b.j_min (b.j_max + 1)

/-- Line 67 of `make_dems.py`: `y = y[imin : imax+1]`. -/
def cropY (y : List Int) (b : BoundingBox) : List Int :=
  pySlice y b.i_min (b.i_max + 1)

/-- Line 68 of `make_dems.py`: `nx = jmax - jmin + 1` (always nonnegative
for a detected box, so `toNat` is exact). -/
def boxW (b : BoundingBox) : Nat := (b.j_max - b.j_min + 1).toNat

/-- Line 69 of `make_dems.py`: `ny = imax - imin + 1` (always nonnegative
for a detected box, so `toNat` is exact). -/
def boxH (b : BoundingBox) : Nat := (b.i_max - b.i_min + 1).toNat

/-- Runs an option-valued function over a list, failing if it fails on any
element: the shape of a Python loop in which any iteration can raise. -/
def mapMo (f : α → Option β) : List α → Option (List β)
  | [] => some []
  | a :: l =>
    match f a, mapMo f l with
    | some b, some bs => some (b :: bs)
    | _, _ => none

/-- One data line of the export loop (line 82 of `make_dems.py`): the
values `x[j]`, `y[i]` and `field[i,j]` are read — any of them can raise
`IndexError`, modelled as `none` — and joined by single spaces with the
default value-to-text conversion. -/
def exportCell (A : List (List Int)) (x y : List Int) (j i : Nat) :
    Option String :=
  match x[j]?, y[i]?, (A[i]?).bind (fun row => row[j]?) with
  | some xv, some yv, some v =>
      some (toString xv ++ " " ++ toString yv ++ " " ++ toString v)
  | _, _, _ => none

/-- Lines 77-85 of `make_dems.py` restricted to one output file: two
header lines `nx` and `ny`, then for `j in range(nx)` (outer) and
`i in range(ny)` (inner) one data line per cell.  An out-of-range index
(a Python `IndexError` aborting the loop) makes the export fail,
modelled as `none`. -/
def exportLines (A : List (List Int)) (x y : List Int) (nx ny : Nat) :
    Option (List String) :=
  match mapMo (fun j => mapMo (fun i => exportCell A x y j i)
      (List.range ny)) (List.range nx) with
  | some blocks => some (toString nx :: toString ny :: blocks.flatten)
  | none => none

/-- Column-major index pairs `(j, i)`: `j` over `0..nx-1` outer, `i` over
`0..ny-1` inner — the traversal order prescribed by the spec. -/
def colMajorPairs (nx ny : Nat) : List (Nat × Nat) :=
  ((List.range nx).map (fun j =>
    (List.range ny).map (fun i => (j, i)))).flatten

/-- One data line as the spec words it: `x[j]`, `y[i]` and `field[i,j]`
separated by single spaces (reads are total here; in-range indices are a
precondition of the format). -/
def specLine (A : List (List Int)) (x y : List Int) (j i : Nat) : String :=
  toString (x.getD j 0) ++ " " ++ toString (y.getD i 0) ++ " "
    ++ toString ((A.getD i []).getD j 0)

/-- Transcription of the output format stated in the spec: line 1 is
`nx`, line 2 is `ny`, then for `j` in `0..nx-1` (column-major outer loop)
and `i` in `0..ny-1` (inner loop) one line holding `x[j]`, `y[i]` and
`field[i,j]` separated by single spaces. -/
def exportSpecLines (A : List (List Int)) (x y : List Int) (nx ny : Nat) :
    List String :=
  toString nx :: toString ny ::
    ((List.range nx).map (fun j => (List.range ny).map
      (fun i => specLine A x y j i))).flatten

/-- The two header lines shared by the four velocity files (line 78). -/
def headerLines (nx ny : Nat) : List String :=
  [toString nx, toString ny]

/-- The coordinate prefix of every data line, in export order: this list
depends only on the axes, never on the exported field. -/
def axisLines (x y : List Int) (nx ny : Nat) : List String :=
  (colMajorPairs nx ny).map (fun ji =>
    toString (x.getD ji.1 0) ++ " " ++ toString (y.getD ji.2 0))

/-- The field value of every data line, in export order. -/
def valueLines (A : List (List Int)) (nx ny : Nat) : List String :=
  (colMajorPairs nx ny).map (fun ji =>
    toString ((A.getD ji.2 []).getD ji.1 0))

/-- Lines 50-88 of `make_dems.py` for one glacier, once the four raw
fields and the two axes are read: detect the bounding box on `vx` with
margin 2, crop the four fields and both axes with it, compute
`nx = jmax - jmin + 1` and `ny = imax - imin + 1`, and export the four
files.  `none` models an uncaught Python exception: empty data at
detection, or an `IndexError` while writing.  The subtraction is taken in
`Int` and `toNat` is exact here because detection always returns
`i_min ≤ i_max` and `j_min ≤ j_max`. -/
def velocityStep (vx vy ex ey : List (List Int)) (x y : List Int) :
    Option (List String × List String × List String × List String) :=
  match detect vx sentinel 2 with
  | none => none
  | some b =>
    match exportLines (slice2 vx b) (cropX x b) (cropY y b)
            (boxW b) (boxH b),
          exportLines (slice2 vy b) (cropX x b) (cropY y b)
            (boxW b) (boxH b),
          exportLines (slice2 ex b) (cropX x b) (cropY y b)
            (boxW b) (boxH b),
          exportLines (slice2 ey b) (cropX x b) (cropY y b)
            (boxW b) (boxH b) with
    | some lu, some lv, some leu, some lev => some (lu, lv, leu, lev)
    | _, _, _, _ => none

/-- Outcome of the per-glacier velocity block: either the block was
skipped, or the work ran (carrying the produced file contents, `none`
standing for a crash during the work). -/
inductive VelAction where
  | skipped : VelAction
  | ran : Option (List String × List String × List String × List String) →
      VelAction
deriving DecidableEq

/-- Lines 43-46 of `make_dems.py`: the velocity work runs only under
`not(exists(UDEM.xy) or exists(VDEM.xy) or exists(EUDEM.xy) or
exists(EVDEM.xy))`; otherwise the block is skipped and the glacier is
reported done. -/
def glacierVelocity (exU exV exEU exEV : Bool)
    (vx vy ex ey : List (List Int)) (x y : List Int) : VelAction :=
  if !(exU || exV || exEU || exEV) then
    VelAction.ran (velocityStep vx vy ex ey x y)
  else
    VelAction.skipped

/-- The box indices lie inside an `ny × nx` grid: the BoundingBox
invariant `0 ≤ i_min ≤ i_max < ny` and `0 ≤ j_min ≤ j_max < nx` of the
spec. -/
def InRange (b : BoundingBox) (ny nx : Nat) : Prop :=
  0 ≤ b.i_min ∧ b.i_min ≤ b.i_max ∧ b.i_max < (ny : Int) ∧
  0 ≤ b.j_min ∧ b.j_min ≤ b.j_max ∧ b.j_max < (nx : Int)

instance decInRange (b : BoundingBox) (ny nx : Nat) :
    Decidable (InRange b ny nx) :=
  inferInstanceAs (Decidable (_ ∧ _ ∧ _ ∧ _ ∧ _ ∧ _))

/-- Folding `min` over a list yields an element of `x :: xs` that bounds
every element of `x :: xs` from below. -/
theorem foldlMin_spec (xs : List Nat) : ∀ x : Nat,
    (xs.foldl min x = x ∨ xs.foldl min x ∈ xs) ∧ xs.foldl min x ≤ x ∧
      ∀ a ∈ xs, xs.foldl min x ≤ a := by
  induction xs with
  | nil => intro x; exact ⟨Or.inl rfl, le_refl x, by simp⟩
  | cons y ys ih =>
    intro x
    obtain ⟨h1, h2, h3⟩ := ih (min x y)
    simp only [List.foldl_cons]
    refine ⟨?_, h2.trans (min_le_left x y), ?_⟩
    · rcases h1 with heq | hmem
      · rcases min_choice x y with hxy | hxy
        · exact Or.inl (by rw [heq, hxy])
        · exact Or.inr (by rw [heq, hxy]; exact List.mem_cons_self y ys)
      · exact Or.inr (List.mem_cons_of_mem y hmem)
    · intro a ha
      rcases List.mem_cons.mp ha with rfl | ha
      · exact h2.trans (min_le_right x a)
      · exact h3 a ha

/-- Folding `max` over a list yields an element of `x :: xs` that bounds
every element of `x :: xs` from above. -/
theorem foldlMax_spec (xs : List Nat) : ∀ x : Nat,
    (xs.foldl max x = x ∨ xs.foldl max x ∈ xs) ∧ x ≤ xs.foldl max x ∧
      ∀ a ∈ xs, a ≤ xs.foldl max x := by
  induction xs with
  | nil => intro x; exact ⟨Or.inl rfl, le_refl x, by simp⟩
  | cons y ys ih =>
    intro x
    obtain ⟨h1, h2, h3⟩ := ih (max x y)
    simp only [List.foldl_cons]
    refine ⟨?_, (le_max_left x y).trans h2, ?_⟩
    · rcases h1 with heq | hmem
      · rcases max_choice x y with hxy | hxy
        · exact Or.inl (by rw [heq, hxy])
        · exact Or.inr (by rw [heq, hxy]; exact List.mem_cons_self y ys)
      · exact Or.inr (List.mem_cons_of_mem y hmem)
    · intro a ha
      rcases List.mem_cons.mp ha with rfl | ha
      · exact (le_max_right x a).trans h2
      · exact h3 a ha

/-- A successful `pyMin` returns a member of the list bounding it below. -/
theorem pyMin_spec {l : List Nat} {m : Nat} (h : pyMin l = some m) :
    m ∈ l ∧ ∀ a ∈ l, m ≤ a := by
  cases l with
  | nil => simp [pyMin] at h
  | cons x xs =>
    simp only [pyMin, Option.some.injEq] at h
    subst h
    obtain ⟨h1, h2, h3⟩ := foldlMin_spec xs x
    refine ⟨?_, ?_⟩
    · rcases h1 with h | h
      · rw [h]; exact List.mem_cons_self x xs
      · exact List.mem_cons_of_mem x h
    · intro a ha
      rcases List.mem_cons.mp ha with rfl | ha
      · exact h2
      · exact h3 a ha

/-- A successful `pyMax` returns a member of the list bounding it above. -/
theorem pyMax_spec {l : List Nat} {m : Nat} (h : pyMax l = some m) :
    m ∈ l ∧ ∀ a ∈ l, a ≤ m := by
  cases l with
  | nil => simp [pyMax] at h
  | cons x xs =>
    simp only [pyMax, Option.some.injEq] at h
    subst h
    obtain ⟨h1, h2, h3⟩ := foldlMax_spec xs x
    refine ⟨?_, ?_⟩
    · rcases h1 with h | h
      · rw [h]; exact List.mem_cons_self x xs
      · exact List.mem_cons_of_mem x h
    · intro a ha
      rcases List.mem_cons.mp ha with rfl | ha
      · exact h2
      · exact h3 a ha

/-- `pyMin` succeeds exactly on nonempty lists. -/
theorem pyMin_isSome {l : List Nat} (h : l ≠ []) : ∃ m, pyMin l = some m := by
  cases l with
  | nil => exact absurd rfl h
  | cons x xs => exact ⟨xs.foldl min x, rfl⟩

/-- `pyMax` succeeds exactly on nonempty lists. -/
theorem pyMax_isSome {l : List Nat} (h : l ≠ []) : ∃ m, pyMax l = some m := by
  cases l with
  | nil => exact absurd rfl h
  | cons x xs => exact ⟨xs.foldl max x, rfl⟩

/-- A valid cell has its row index in range. -/
theorem validAt_lt_length {A : List (List Int)} {s : Int} {i j : Nat}
    (h : ValidAt A s i j) : i < A.length := by
  by_contra hle
  push_neg at hle
  apply h
  rw [List.getD_eq_default _ _ hle, List.getD_nil]

/-- A valid cell has its column index in range for its row. -/
theorem validAt_lt_rowLength {A : List (List Int)} {s : Int} {i j : Nat}
    (h : ValidAt A s i j) : j < (A.getD i []).length := by
  by_contra hle
  push_neg at hle
  exact h (List.getD_eq_default _ _ hle)

/-- Membership in the `np.where` coordinate list is exactly validity of
the cell. -/
theorem mem_npWhere {A : List (List Int)} {s : Int} {i j : Nat} :
    (i, j) ∈ npWhere A s ↔ ValidAt A s i j := by
  constructor
  · intro h
    obtain ⟨l, hl, hmem⟩ := List.mem_flatten.mp h
    obtain ⟨i1, _, rfl⟩ := List.mem_map.mp hl
    obtain ⟨j1, _, hite⟩ := List.mem_filterMap.mp hmem
    by_cases hc : (A.getD i1 []).getD j1 s ≠ s
    · rw [if_pos hc] at hite
      simp only [Option.some.injEq, Prod.mk.injEq] at hite
      obtain ⟨rfl, rfl⟩ := hite
      exact hc
    · rw [if_neg hc] at hite
      exact absurd hite (by simp)
  · intro hv
    refine List.mem_flatten.mpr ⟨_,
      List.mem_map.mpr ⟨i, List.mem_range.mpr (validAt_lt_length hv), rfl⟩,
      List.mem_filterMap.mpr
        ⟨j, List.mem_range.mpr (validAt_lt_rowLength hv), ?_⟩⟩
    exact if_pos hv

/-- The first components of `np.where` are exactly the rows holding a
valid cell. -/
theorem mem_map_fst_npWhere {A : List (List Int)} {s : Int} {i : Nat} :
    i ∈ (npWhere A s).map Prod.fst ↔ RowValid A s i := by
  rw [List.mem_map]
  constructor
  · rintro ⟨p, hp, rfl⟩
    exact ⟨p.2, mem_npWhere.mp hp⟩
  · rintro ⟨j, hj⟩
    exact ⟨(i, j), mem_npWhere.mpr hj, rfl⟩

/-- The second components of `np.where` are exactly the columns holding a
valid cell. -/
theorem mem_map_snd_npWhere {A : List (List Int)} {s : Int} {j : Nat} :
    j ∈ (npWhere A s).map Prod.snd ↔ ColValid A s j := by
  rw [List.mem_map]
  constructor
  · rintro ⟨p, hp, rfl⟩
    exact ⟨p.1, mem_npWhere.mp hp⟩
  · rintro ⟨i, hi⟩
    exact ⟨(i, j), mem_npWhere.mpr hi, rfl⟩

/-- Characterization of a successful detection: the returned bounds are
exactly the least and greatest valid row and column indices, shifted by
the margin with no clamping. -/
theorem detect_char {A : List (List Int)} {s margin : Int}
    {b : BoundingBox} (h : detect A s margin = some b) :
    ∃ i0 i1 j0 j1 : Nat,
      IsLeast {i | RowValid A s i} i0 ∧
      IsGreatest {i | RowValid A s i} i1 ∧
      IsLeast {j | ColValid A s j} j0 ∧
      IsGreatest {j | ColValid A s j} j1 ∧
      b.i_min = (i0 : Int) - margin ∧ b.i_max = (i1 : Int) + margin ∧
      b.j_min = (j0 : Int) - margin ∧ b.j_max = (j1 : Int) + margin := by
  simp only [detect] at h
  cases h1 : pyMin ((npWhere A s).map Prod.fst) with
  | none => rw [h1] at h; exact absurd h (by simp)
  | some i0 =>
  cases h2 : pyMax ((npWhere A s).map Prod.fst) with
  | none => rw [h1, h2] at h; exact absurd h (by simp)
  | some i1 =>
  cases h3 : pyMin ((npWhere A s).map Prod.snd) with
  | none => rw [h1, h2, h3] at h; exact absurd h (by simp)
  | some j0 =>
  cases h4 : pyMax ((npWhere A s).map Prod.snd) with
  | none => rw [h1, h2, h3, h4] at h; exact absurd h (by simp)
  | some j1 =>
  rw [h1, h2, h3, h4] at h
  simp only [Option.some.injEq] at h
  subst h
  obtain ⟨hm1, hb1⟩ := pyMin_spec h1
  obtain ⟨hm2, hb2⟩ := pyMax_spec h2
  obtain ⟨hm3, hb3⟩ := pyMin_spec h3
  obtain ⟨hm4, hb4⟩ := pyMax_spec h4
  refine ⟨i0, i1, j0, j1,
    ⟨mem_map_fst_npWhere.mp hm1, fun i hi =>
      hb1 i (mem_map_fst_npWhere.mpr hi)⟩,
    ⟨mem_map_fst_npWhere.mp hm2, fun i hi =>
      hb2 i (mem_map_fst_npWhere.mpr hi)⟩,
    ⟨mem_map_snd_npWhere.mp hm3, fun j hj =>
      hb3 j (mem_map_snd_npWhere.mpr hj)⟩,
    ⟨mem_map_snd_npWhere.mp hm4, fun j hj =>
      hb4 j (mem_map_snd_npWhere.mpr hj)⟩,
    rfl, rfl, rfl, rfl⟩

/-- Converse computation: the least and greatest valid row and column
indices determine the detection result. -/
theorem detect_eq_of_bounds (A : List (List Int)) (s margin : Int)
    (i0 i1 j0 j1 : Nat)
    (hi0 : IsLeast {i | RowValid A s i} i0)
    (hi1 : IsGreatest {i | RowValid A s i} i1)
    (hj0 : IsLeast {j | ColValid A s j} j0)
    (hj1 : IsGreatest {j | ColValid A s j} j1) :
    detect A s margin = some ⟨(i0 : Int) - margin, (i1 : Int) + margin,
      (j0 : Int) - margin, (j1 : Int) + margin⟩ := by
  have hneF : (npWhere A s).map Prod.fst ≠ [] := by
    intro hnil
    have hmem : i0 ∈ (npWhere A s).map Prod.fst :=
      mem_map_fst_npWhere.mpr hi0.1
    rw [hnil] at hmem
    exact absurd hmem (List.not_mem_nil i0)
  have hneS : (npWhere A s).map Prod.snd ≠ [] := by
    intro hnil
    have hmem : j0 ∈ (npWhere A s).map Prod.snd :=
      mem_map_snd_npWhere.mpr hj0.1
    rw [hnil] at hmem
    exact absurd hmem (List.not_mem_nil j0)
  obtain ⟨m0, hm0⟩ := pyMin_isSome hneF
  obtain ⟨m1, hm1⟩ := pyMax_isSome hneF
  obtain ⟨n0, hn0⟩ := pyMin_isSome hneS
  obtain ⟨n1, hn1⟩ := pyMax_isSome hneS
  have e0 : m0 = i0 := le_antisymm
    ((pyMin_spec hm0).2 i0 (mem_map_fst_npWhere.mpr hi0.1))
    (hi0.2 (mem_map_fst_npWhere.mp (pyMin_spec hm0).1))
  have e1 : m1 = i1 := le_antisymm
    (hi1.2 (mem_map_fst_npWhere.mp (pyMax_spec hm1).1))
    ((pyMax_spec hm1).2 i1 (mem_map_fst_npWhere.mpr hi1.1))
  have e2 : n0 = j0 := le_antisymm
    ((pyMin_spec hn0).2 j0 (mem_map_snd_npWhere.mpr hj0.1))
    (hj0.2 (mem_map_snd_npWhere.mp (pyMin_spec hn0).1))
  have e3 : n1 = j1 := le_antisymm
    (hj1.2 (mem_map_snd_npWhere.mp (pyMax_spec hn1).1))
    ((pyMax_spec hn1).2 j1 (mem_map_snd_npWhere.mpr hj1.1))
  subst e0 e1 e2 e3
  simp only [detect]
  rw [hm0, hm1, hn0, hn1]

/-- A grid with at least one valid cell yields a detection result. -/
theorem detect_isSome {A : List (List Int)} {s : Int} (margin : Int)
    (h : ∃ i j, ValidAt A s i j) : ∃ b, detect A s margin = some b := by
  obtain ⟨i, j, hv⟩ := h
  have hneF : (npWhere A s).map Prod.fst ≠ [] := by
    intro hnil
    have hmem : i ∈ (npWhere A s).map Prod.fst :=
      mem_map_fst_npWhere.mpr ⟨j, hv⟩
    rw [hnil] at hmem
    exact absurd hmem (List.not_mem_nil i)
  have hneS : (npWhere A s).map Prod.snd ≠ [] := by
    intro hnil
    have hmem : j ∈ (npWhere A s).map Prod.snd :=
      mem_map_snd_npWhere.mpr ⟨i, hv⟩
    rw [hnil] at hmem
    exact absurd hmem (List.not_mem_nil j)
  obtain ⟨m0, hm0⟩ := pyMin_isSome hneF
  obtain ⟨m1, hm1⟩ := pyMax_isSome hneF
  obtain ⟨n0, hn0⟩ := pyMin_isSome hneS
  obtain ⟨n1, hn1⟩ := pyMax_isSome hneS
  refine ⟨⟨(m0 : Int) - margin, (m1 : Int) + margin,
    (n0 : Int) - margin, (n1 : Int) + margin⟩, ?_⟩
  simp only [detect]
  rw [hm0, hm1, hn0, hn1]

/-- A grid without any valid cell has an empty `np.where` list. -/
theorem npWhere_eq_nil {A : List (List Int)} {s : Int}
    (h : ∀ i j, ¬ ValidAt A s i j) : npWhere A s = [] := by
  rw [List.eq_nil_iff_forall_not_mem]
  intro p hp
  exact h p.1 p.2 (mem_npWhere.mp hp)

/-- C1: for every 2-D field containing at least one cell not equal to the
sentinel, detection with the fixed margin 2 returns exactly the box
`(min(rows) - 2, max(rows) + 2, min(cols) - 2, max(cols) + 2)`, where
rows and cols are the row and column indices of the non-sentinel cells;
the bounds lie exactly 2 cells beyond the tightest enclosing rectangle,
with no clamping to the array bounds. -/
theorem C1_detect_exact_bounds (A : List (List Int)) (s : Int)
    (h : ∃ i j, ValidAt A s i j) :
    ∃ b, detect A s 2 = some b ∧
      (∃ i0, IsLeast {i | RowValid A s i} i0 ∧ b.i_min = (i0 : Int) - 2) ∧
      (∃ i1, IsGreatest {i | RowValid A s i} i1 ∧
        b.i_max = (i1 : Int) + 2) ∧
      (∃ j0, IsLeast {j | ColValid A s j} j0 ∧ b.j_min = (j0 : Int) - 2) ∧
      (∃ j1, IsGreatest {j | ColValid A s j} j1 ∧
        b.j_max = (j1 : Int) + 2) := by
  obtain ⟨b, hb⟩ := detect_isSome 2 h
  obtain ⟨i0, i1, j0, j1, hl0, hg1, hl2, hg3, e1, e2, e3, e4⟩ :=
    detect_char hb
  exact ⟨b, hb, ⟨i0, hl0, e1⟩, ⟨i1, hg1, e2⟩, ⟨j0, hl2, e3⟩,
    ⟨j1, hg3, e4⟩⟩

/-- Witness for C1 on a concrete 2 × 2 field with valid cells at `(0, 1)`
and `(1, 0)`. -/
theorem C1_detect_exact_bounds_witness :
    ∃ b, detect [[sentinel, 5], [7, sentinel]] sentinel 2 = some b ∧
      (∃ i0, IsLeast
        {i | RowValid [[sentinel, 5], [7, sentinel]] sentinel i} i0 ∧
        b.i_min = (i0 : Int) - 2) ∧
      (∃ i1, IsGreatest
        {i | RowValid [[sentinel, 5], [7, sentinel]] sentinel i} i1 ∧
        b.i_max = (i1 : Int) + 2) ∧
      (∃ j0, IsLeast
        {j | ColValid [[sentinel, 5], [7, sentinel]] sentinel j} j0 ∧
        b.j_min = (j0 : Int) - 2) ∧
      (∃ j1, IsGreatest
        {j | ColValid [[sentinel, 5], [7, sentinel]] sentinel j} j1 ∧
        b.j_max = (j1 : Int) + 2) :=
  C1_detect_exact_bounds [[sentinel, 5], [7, sentinel]] sentinel
    ⟨0, 1, by decide⟩

/-- C5: a field all of whose cells equal the sentinel (no valid
measurement anywhere) makes detection fail — the `ValueError` raised by
the builtin `min` on an empty index sequence, modelled as `none` — instead
of returning a bounding box. -/
theorem C5_all_sentinel_detect_fails (A : List (List Int)) (s margin : Int)
    (h : ∀ i j, (A.getD i []).getD j s = s) :
    detect A s margin = none := by
  have hnil : npWhere A s = [] := npWhere_eq_nil (fun i j hv => hv (h i j))
  simp [detect, hnil, pyMin]

/-- Witness for C5 on a concrete 1 × 2 all-sentinel field. -/
theorem C5_all_sentinel_detect_fails_witness :
    detect [[sentinel, sentinel]] sentinel 2 = none :=
  C5_all_sentinel_detect_fails [[sentinel, sentinel]] sentinel 2 (by
    intro i j
    rcases i with _ | i
    · rcases j with _ | _ | j <;> rfl
    · rfl)

/-- The 5 × 5 end-to-end example of the spec: sentinel everywhere except
a 2 × 2 block of valid values at rows 1-2, columns 1-2. -/
def c2Field : List (List Int) :=
  [[sentinel, sentinel, sentinel, sentinel, sentinel],
   [sentinel, 1, 1, sentinel, sentinel],
   [sentinel, 1, 1, sentinel, sentinel],
   [sentinel, sentinel, sentinel, sentinel, sentinel],
   [sentinel, sentinel, sentinel, sentinel, sentinel]]

/-- C2 counterexample: on the 5 × 5 example with margin 2, detection does
yield the out-of-range box `(-1, 4, -1, 4)`, but the subsequent crop does
NOT raise: following Python slice semantics the negative start index
silently wraps around to the end of the array, so the crop quietly
returns the 1 × 1 bottom-right corner instead of failing loudly. -/
theorem C2_crop_wraps_counterexample :
    detect c2Field sentinel 2 = some ⟨-1, 4, -1, 4⟩ ∧
    slice2 c2Field ⟨-1, 4, -1, 4⟩ = [[sentinel]] := by decide

/-- C2 amended: detection with margin 2 yields the box
`(i_min = -1, i_max = 4, j_min = -1, j_max = 4)`; the crop with this
negative index silently wraps (Python slice semantics), producing a 1 × 1
cropped array rather than raising; the loud failure only occurs later, at
export time, when the loop indexes the length-1 cropped axes out of range
(a Python `IndexError`), so the whole velocity step fails. -/
theorem C2_wrap_then_export_fails :
    detect c2Field sentinel 2 = some ⟨-1, 4, -1, 4⟩ ∧
    (slice2 c2Field ⟨-1, 4, -1, 4⟩).length = 1 ∧
    velocityStep c2Field c2Field c2Field c2Field
      [0, 1, 2, 3, 4] [0, 1, 2, 3, 4] = none := by decide

/-- C7 counterexample: with `UDEM.xy` present but `VDEM.xy`, `EUDEM.xy`
and `EVDEM.xy` all missing, the orchestrator skips the whole velocity
block: the code tests whether ANY of the four files exists, so the
claimed completion signal — the expected output files exist — is false
here, yet the block transitions directly to done. -/
theorem C7_skip_on_any_counterexample :
    glacierVelocity true false false false [] [] [] [] [] [] =
      VelAction.skipped ∧
    (true && false && false && false) = false := by decide

/-- C7 amended: before doing any velocity-export work the orchestrator
checks whether ANY of the four expected output files exists, and if so it
transitions directly to done with no reading, detection, cropping, or
export; the work runs exactly when none of the four files exists.
Existence of at least one file, not content, is the completion signal. -/
theorem C7_skip_iff_any_exists (exU exV exEU exEV : Bool)
    (vx vy ex ey : List (List Int)) (x y : List Int) :
    (glacierVelocity exU exV exEU exEV vx vy ex ey x y =
        VelAction.skipped ↔ (exU || exV || exEU || exEV) = true) ∧
    (glacierVelocity exU exV exEU exEV vx vy ex ey x y =
        VelAction.ran (velocityStep vx vy ex ey x y) ↔
      (exU || exV || exEU || exEV) = false) := by
  unfold glacierVelocity
  cases exU <;> cases exV <;> cases exEU <;> cases exEV <;> simp

/-- `mapMo` succeeds pointwise when its function does. -/
theorem mapMo_eq_some_map {α β : Type} {f : α → Option β} {g : α → β}
    (l : List α) (h : ∀ a ∈ l, f a = some (g a)) :
    mapMo f l = some (l.map g) := by
  induction l with
  | nil => rfl
  | cons a l ih =>
    have ha := h a (List.mem_cons_self a l)
    have hl := ih (fun b hb => h b (List.mem_cons_of_mem a hb))
    simp only [mapMo, ha, hl, List.map_cons]

/-- With all three indices in range, the exported data line is the data
line of the spec format. -/
theorem exportCell_eq {A : List (List Int)} {x y : List Int} {j i : Nat}
    (hj : j < x.length) (hi : i < y.length) (hiA : i < A.length)
    (hjr : j < (A.getD i []).length) :
    exportCell A x y j i = some (specLine A x y j i) := by
  have hd : A.getD i [] = A[i] := List.getD_eq_getElem A [] hiA
  have hjr2 : j < A[i].length := hd ▸ hjr
  have h3 : (A[i]?).bind (fun row => row[j]?) = some (A[i].getD j 0) := by
    rw [List.getElem?_eq_getElem hiA]
    show A[i][j]? = some (A[i].getD j 0)
    rw [List.getElem?_eq_getElem hjr2, List.getD_eq_getElem A[i] 0 hjr2]
  unfold exportCell specLine
  rw [List.getElem?_eq_getElem hj, List.getElem?_eq_getElem hi, h3,
    List.getD_eq_getElem x 0 hj, List.getD_eq_getElem y 0 hi, hd]

/-- With the axes at least as long as the requested counts and the field
covering the requested rectangle, the export of the code succeeds and
produces exactly the spec format. -/
theorem exportLines_eq_spec (A : List (List Int)) (x y : List Int)
    (nx ny : Nat) (hx : nx ≤ x.length) (hy : ny ≤ y.length)
    (hA : ny ≤ A.length)
    (hrow : ∀ i, i < ny → nx ≤ (A.getD i []).length) :
    exportLines A x y nx ny = some (exportSpecLines A x y nx ny) := by
  have houter : mapMo (fun j => mapMo (fun i => exportCell A x y j i)
      (List.range ny)) (List.range nx)
      = some ((List.range nx).map (fun j => (List.range ny).map
          (fun i => specLine A x y j i))) := by
    apply mapMo_eq_some_map
    intro j hj
    apply mapMo_eq_some_map
    intro i hi
    have hj2 := List.mem_range.mp hj
    have hi2 := List.mem_range.mp hi
    exact exportCell_eq (lt_of_lt_of_le hj2 hx) (lt_of_lt_of_le hi2 hy)
      (lt_of_lt_of_le hi2 hA) (lt_of_lt_of_le hj2 (hrow i hi2))
  unfold exportLines exportSpecLines
  rw [houter]

/-- The spec format holds its two header lines plus `nx * ny` data
lines. -/
theorem exportSpecLines_length (A : List (List Int)) (x y : List Int)
    (nx ny : Nat) :
    (exportSpecLines A x y nx ny).length = 2 + nx * ny := by
  simp only [exportSpecLines, List.length_cons, List.length_flatten,
    List.map_map, Function.comp_def, List.length_map, List.length_range,
    List.map_const', List.sum_replicate, smul_eq_mul]
  omega

/-- C3: for every exported field of shape `(ny, nx)` with axes `x`
(length `nx`) and `y` (length `ny`), the export produces a file whose
first line is `nx`, second line is `ny`, followed by exactly `nx * ny`
data lines in column-major order — outer loop `j`, inner loop `i` — each
line holding `x[j]`, `y[i]`, `field[i][j]` separated by single spaces and
rendered with the default value-to-text conversion: the produced lines
coincide with the spec-side transcription of the format. -/
theorem C3_export_format (A : List (List Int)) (x y : List Int)
    (nx ny : Nat) (hx : x.length = nx) (hy : y.length = ny)
    (hA : isMatrix A ny nx) :
    exportLines A x y nx ny = some (exportSpecLines A x y nx ny) ∧
    (exportSpecLines A x y nx ny).length = 2 + nx * ny := by
  refine ⟨?_, exportSpecLines_length A x y nx ny⟩
  apply exportLines_eq_spec A x y nx ny (le_of_eq hx.symm)
    (le_of_eq hy.symm) (le_of_eq hA.1.symm)
  intro i hi
  have hiA : i < A.length := by rw [hA.1]; exact hi
  rw [List.getD_eq_getElem A [] hiA]
  exact le_of_eq (hA.2 A[i] (List.getElem_mem hiA)).symm

/-- A natural slice endpoint below the length is preserved by
`pyBound`. -/
theorem pyBound_natCast {n : Nat} (a : Nat) (h : a ≤ n) :
    pyBound n (a : Int) = a := by
  unfold pyBound
  rw [if_neg (by omega), Int.toNat_natCast]
  exact min_eq_left h

/-- For in-range natural bounds, the Python slice `l[lo : hi+1]` is the
usual drop-then-take window. -/
theorem pySlice_nat (l : List α) (lo hi : Nat) (hlo : lo ≤ hi)
    (hhi : hi < l.length) :
    pySlice l (lo : Int) ((hi : Int) + 1) =
      (l.drop lo).take (hi + 1 - lo) := by
  have h1 : pyBound l.length ((hi : Int) + 1) = hi + 1 := by
    have e : ((hi : Int) + 1) = ((hi + 1 : Nat) : Int) := by push_cast; ring
    rw [e, pyBound_natCast (hi + 1) (by omega)]
  have h2 : pyBound l.length (lo : Int) = lo := by
    unfold pyBound
    rw [if_neg (by omega), Int.toNat_natCast]
    exact min_eq_left (by omega)
  have e2 : lo + (hi + 1 - lo) = hi + 1 := by omega
  unfold pySlice
  rw [h1, h2, List.take_drop, e2]

/-- Length of an in-range Python slice. -/
theorem length_pySlice_nat (l : List α) (lo hi : Nat) (hlo : lo ≤ hi)
    (hhi : hi < l.length) :
    (pySlice l (lo : Int) ((hi : Int) + 1)).length = hi + 1 - lo := by
  rw [pySlice_nat l lo hi hlo hhi]
  rw [List.length_take, List.length_drop]
  omega

/-- Reading an in-range Python slice with a default: position `k` of the
slice is position `lo + k` of the original list when `k` is inside the
window, and the default beyond it. -/
theorem getD_pySlice_nat (l : List α) (lo hi : Nat) (hlo : lo ≤ hi)
    (hhi : hi < l.length) (k : Nat) (d : α) :
    (pySlice l (lo : Int) ((hi : Int) + 1)).getD k d =
      if k < hi + 1 - lo then l.getD (lo + k) d else d := by
  rw [pySlice_nat l lo hi hlo hhi]
  by_cases hk : k < hi + 1 - lo
  · rw [if_pos hk, List.getD_eq_getElem?_getD, List.getElem?_take_of_lt hk,
      List.getElem?_drop, ← List.getD_eq_getElem?_getD]
  · rw [if_neg hk]
    apply List.getD_eq_default
    rw [List.length_take, List.length_drop]
    omega

/-- Reading a mapped list with an arbitrary default, inside range. -/
theorem getD_map_of_lt {α β : Type} {f : α → β} {l : List α} {i : Nat}
    (h : i < l.length) (d : α) (d2 : β) :
    (l.map f).getD i d2 = f (l.getD i d) := by
  rw [List.getD_eq_getElem (l.map f) d2
    (by rw [List.length_map]; exact h)]
  rw [List.getElem_map, List.getD_eq_getElem l d h]

/-- Row `i` of a rectangular `ny × nx` array has length `nx`. -/
theorem isMatrix_getD_length {A : List (List Int)} {ny nx : Nat}
    (hM : isMatrix A ny nx) {i : Nat} (hi : i < ny) :
    (A.getD i []).length = nx := by
  have hiA : i < A.length := by rw [hM.1]; exact hi
  rw [List.getD_eq_getElem A [] hiA]
  exact hM.2 _ (List.getElem_mem hiA)

/-- Cropping a rectangular array with an in-range box whose corners are
the natural numbers `a ≤ c < ny` (rows) and `a2 ≤ d < nx` (columns)
produces a rectangular array of shape `(c+1-a) × (d+1-a2)`. -/
theorem slice2_shape_nat {A : List (List Int)} {ny nx : Nat}
    (hM : isMatrix A ny nx) {b : BoundingBox} {a c a2 d : Nat}
    (hbi : b.i_min = (a : Int)) (hbI : b.i_max = (c : Int))
    (hbj : b.j_min = (a2 : Int)) (hbJ : b.j_max = (d : Int))
    (hac : a ≤ c) (hc : c < ny) (had : a2 ≤ d) (hd : d < nx) :
    isMatrix (slice2 A b) (c + 1 - a) (d + 1 - a2) := by
  obtain ⟨hlen, hrows⟩ := hM
  have hcA : c < A.length := by rw [hlen]; exact hc
  constructor
  · unfold slice2
    rw [List.length_map, hbi, hbI, length_pySlice_nat A a c hac hcA]
  · intro row hrow
    unfold slice2 at hrow
    rw [List.mem_map] at hrow
    obtain ⟨row0, hrow0, rfl⟩ := hrow
    have hsub : row0 ∈ A := by
      rw [hbi, hbI, pySlice_nat A a c hac hcA] at hrow0
      exact ((List.take_sublist _ _).trans (List.drop_sublist _ _)).subset
        hrow0
    have hdrow : d < row0.length := by rw [hrows row0 hsub]; exact hd
    rw [hbj, hbJ, length_pySlice_nat row0 a2 d had hdrow]

/-- Validity in a crop by an in-range box corresponds to validity of the
index-shifted cell of the original array, within the crop window. -/
theorem validAt_slice2_nat {A : List (List Int)} {s : Int} {ny nx : Nat}
    (hM : isMatrix A ny nx) {b : BoundingBox} {a c a2 d : Nat}
    (hbi : b.i_min = (a : Int)) (hbI : b.i_max = (c : Int))
    (hbj : b.j_min = (a2 : Int)) (hbJ : b.j_max = (d : Int))
    (hac : a ≤ c) (hc : c < ny) (had : a2 ≤ d) (hd : d < nx)
    (i j : Nat) :
    ValidAt (slice2 A b) s i j ↔
      i < c + 1 - a ∧ j < d + 1 - a2 ∧ ValidAt A s (a + i) (a2 + j) := by
  have hlen := hM.1
  have hcA : c < A.length := by rw [hlen]; exact hc
  unfold ValidAt slice2
  rw [hbi, hbI, hbj, hbJ]
  by_cases hi : i < c + 1 - a
  · have hLlen : i < (pySlice A (a : Int) ((c : Int) + 1)).length := by
      rw [length_pySlice_nat A a c hac hcA]; exact hi
    rw [getD_map_of_lt hLlen ([] : List Int) ([] : List Int)]
    rw [getD_pySlice_nat A a c hac hcA i ([] : List Int), if_pos hi]
    have hrowLen : d < (A.getD (a + i) []).length := by
      have hai : a + i < ny := by omega
      rw [isMatrix_getD_length hM hai]
      exact hd
    rw [getD_pySlice_nat (A.getD (a + i) []) a2 d had hrowLen j s]
    by_cases hj : j < d + 1 - a2
    · rw [if_pos hj]
      simp [hi, hj]
    · rw [if_neg hj]
      simp [hj]
  · have hout : (List.map (fun row => pySlice row ((a2 : Int)) ((d : Int) + 1))
        (pySlice A ((a : Int)) ((c : Int) + 1))).getD i [] = [] := by
      apply List.getD_eq_default
      rw [List.length_map, length_pySlice_nat A a c hac hcA]
      omega
    rw [hout]
    simp [hi]

/-- Cropping a rectangular array with an in-range box produces the shape
`(boxH, boxW)` announced by the box. -/
theorem slice2_isMatrix_of_inRange {A : List (List Int)} {ny nx : Nat}
    {b : BoundingBox} (hM : isMatrix A ny nx) (hb : InRange b ny nx) :
    isMatrix (slice2 A b) (boxH b) (boxW b) := by
  obtain ⟨h1, h2, h3, h4, h5, h6⟩ := hb
  have hbi : b.i_min = (b.i_min.toNat : Int) := (Int.toNat_of_nonneg h1).symm
  have hbI : b.i_max = (b.i_max.toNat : Int) :=
    (Int.toNat_of_nonneg (h1.trans h2)).symm
  have hbj : b.j_min = (b.j_min.toNat : Int) := (Int.toNat_of_nonneg h4).symm
  have hbJ : b.j_max = (b.j_max.toNat : Int) :=
    (Int.toNat_of_nonneg (h4.trans h5)).symm
  have e1 : boxH b = b.i_max.toNat + 1 - b.i_min.toNat := by
    unfold boxH; omega
  have e2 : boxW b = b.j_max.toNat + 1 - b.j_min.toNat := by
    unfold boxW; omega
  rw [e1, e2]
  exact slice2_shape_nat hM hbi hbI hbj hbJ (by omega) (by omega)
    (by omega) (by omega)

/-- The cropped x-axis of an in-range box has length `boxW`. -/
theorem length_cropX {x : List Int} {b : BoundingBox} {ny0 nx0 : Nat}
    (hb : InRange b ny0 nx0) (hx : x.length = nx0) :
    (cropX x b).length = boxW b := by
  obtain ⟨h1, h2, h3, h4, h5, h6⟩ := hb
  have hbj : b.j_min = (b.j_min.toNat : Int) := (Int.toNat_of_nonneg h4).symm
  have hbJ : b.j_max = (b.j_max.toNat : Int) :=
    (Int.toNat_of_nonneg (h4.trans h5)).symm
  unfold cropX boxW
  rw [hbj, hbJ, length_pySlice_nat x _ _ (by omega) (by omega)]
  omega

/-- The cropped y-axis of an in-range box has length `boxH`. -/
theorem length_cropY {y : List Int} {b : BoundingBox} {ny0 nx0 : Nat}
    (hb : InRange b ny0 nx0) (hy : y.length = ny0) :
    (cropY y b).length = boxH b := by
  obtain ⟨h1, h2, h3, h4, h5, h6⟩ := hb
  have hbi : b.i_min = (b.i_min.toNat : Int) := (Int.toNat_of_nonneg h1).symm
  have hbI : b.i_max = (b.i_max.toNat : Int) :=
    (Int.toNat_of_nonneg (h1.trans h2)).symm
  unfold cropY boxH
  rw [hbi, hbI, length_pySlice_nat y _ _ (by omega) (by omega)]
  omega

/-- The spec format decomposes into the header lines followed by the
zip of the axis-only line prefixes with the field values: the prefix list
depends only on the axes. -/
theorem exportSpecLines_decomp (A : List (List Int)) (x y : List Int)
    (nx ny : Nat) :
    exportSpecLines A x y nx ny = headerLines nx ny ++
      List.zipWith (fun p v => p ++ " " ++ v) (axisLines x y nx ny)
        (valueLines A nx ny) := by
  unfold exportSpecLines headerLines axisLines valueLines specLine
  rw [List.zipWith_map, List.zipWith_same]
  unfold colMajorPairs
  simp only [List.map_flatten, List.map_map, Function.comp_def,
    List.cons_append, List.nil_append]

/-- Exporting any field cropped by an in-range box succeeds and produces
the header lines for the box dimensions followed by the common axis
prefixes zipped with the field values. -/
theorem export_cropped_eq {f : List (List Int)} {x y : List Int}
    {ny0 nx0 : Nat} {b : BoundingBox} (hf : isMatrix f ny0 nx0)
    (hx : x.length = nx0) (hy : y.length = ny0)
    (hb : InRange b ny0 nx0) :
    exportLines (slice2 f b) (cropX x b) (cropY y b) (boxW b) (boxH b) =
      some (headerLines (boxW b) (boxH b) ++
        List.zipWith (fun p v => p ++ " " ++ v)
          (axisLines (cropX x b) (cropY y b) (boxW b) (boxH b))
          (valueLines (slice2 f b) (boxW b) (boxH b))) := by
  have hM := slice2_isMatrix_of_inRange hf hb
  rw [exportLines_eq_spec (slice2 f b) (cropX x b) (cropY y b)
    (boxW b) (boxH b)
    (le_of_eq (length_cropX hb hx).symm)
    (le_of_eq (length_cropY hb hy).symm)
    (le_of_eq hM.1.symm)
    (fun i hi => le_of_eq (isMatrix_getD_length hM hi).symm),
    exportSpecLines_decomp]

/-- C4: for every grid whose four attached fields share one pre-crop
shape and every in-range bounding box, all four cropped fields have the
identical shape `(i_max - i_min + 1, j_max - j_min + 1)`, the cropped
y-axis length equals the row count and the cropped x-axis length equals
the column count, and the four exported files carry the same two header
lines and data lines built from one common axis-prefix list
(byte-identical axis values), zipped with the values of each field. -/
theorem C4_crop_consistent (vx vy ex ey : List (List Int))
    (x y : List Int) (ny0 nx0 : Nat) (b : BoundingBox)
    (hvx : isMatrix vx ny0 nx0) (hvy : isMatrix vy ny0 nx0)
    (hex : isMatrix ex ny0 nx0) (hey : isMatrix ey ny0 nx0)
    (hx : x.length = nx0) (hy : y.length = ny0)
    (hb : InRange b ny0 nx0) :
    isMatrix (slice2 vx b) (boxH b) (boxW b) ∧
    isMatrix (slice2 vy b) (boxH b) (boxW b) ∧
    isMatrix (slice2 ex b) (boxH b) (boxW b) ∧
    isMatrix (slice2 ey b) (boxH b) (boxW b) ∧
    (cropY y b).length = boxH b ∧
    (cropX x b).length = boxW b ∧
    exportLines (slice2 vx b) (cropX x b) (cropY y b) (boxW b) (boxH b) =
      some (headerLines (boxW b) (boxH b) ++
        List.zipWith (fun p v => p ++ " " ++ v)
          (axisLines (cropX x b) (cropY y b) (boxW b) (boxH b))
          (valueLines (slice2 vx b) (boxW b) (boxH b))) ∧
    exportLines (slice2 vy b) (cropX x b) (cropY y b) (boxW b) (boxH b) =
      some (headerLines (boxW b) (boxH b) ++
        List.zipWith (fun p v => p ++ " " ++ v)
          (axisLines (cropX x b) (cropY y b) (boxW b) (boxH b))
          (valueLines (slice2 vy b) (boxW b) (boxH b))) ∧
    exportLines (slice2 ex b) (cropX x b) (cropY y b) (boxW b) (boxH b) =
      some (headerLines (boxW b) (boxH b) ++
        List.zipWith (fun p v => p ++ " " ++ v)
          (axisLines (cropX x b) (cropY y b) (boxW b) (boxH b))
          (valueLines (slice2 ex b) (boxW b) (boxH b))) ∧
    exportLines (slice2 ey b) (cropX x b) (cropY y b) (boxW b) (boxH b) =
      some (headerLines (boxW b) (boxH b) ++
        List.zipWith (fun p v => p ++ " " ++ v)
          (axisLines (cropX x b) (cropY y b) (boxW b) (boxH b))
          (valueLines (slice2 ey b) (boxW b) (boxH b))) :=
  ⟨slice2_isMatrix_of_inRange hvx hb, slice2_isMatrix_of_inRange hvy hb,
   slice2_isMatrix_of_inRange hex hb, slice2_isMatrix_of_inRange hey hb,
   length_cropY hb hy, length_cropX hb hx,
   export_cropped_eq hvx hx hy hb, export_cropped_eq hvy hx hy hb,
   export_cropped_eq hex hx hy hb, export_cropped_eq hey hx hy hb⟩

/-- Concrete velocity-x field for the C4 witness. -/
def w4vx : List (List Int) := [[1, 2], [3, 4]]

/-- Concrete velocity-y field for the C4 witness. -/
def w4vy : List (List Int) := [[5, 6], [7, 8]]

/-- Concrete error-x field for the C4 witness. -/
def w4ex : List (List Int) := [[9, 10], [11, 12]]

/-- Concrete error-y field for the C4 witness. -/
def w4ey : List (List Int) := [[13, 14], [15, 16]]

/-- Concrete x-axis for the C4 witness. -/
def w4x : List Int := [10, 20]

/-- Concrete y-axis for the C4 witness. -/
def w4y : List Int := [30, 40]

/-- Concrete in-range box for the C4 witness. -/
def w4b : BoundingBox := ⟨0, 1, 0, 1⟩

/-- Witness for C4 on a concrete 2 × 2 grid of four fields with the full
in-range box. -/
theorem C4_crop_consistent_witness :
    isMatrix (slice2 w4vx w4b) (boxH w4b) (boxW w4b) ∧
    isMatrix (slice2 w4vy w4b) (boxH w4b) (boxW w4b) ∧
    isMatrix (slice2 w4ex w4b) (boxH w4b) (boxW w4b) ∧
    isMatrix (slice2 w4ey w4b) (boxH w4b) (boxW w4b) ∧
    (cropY w4y w4b).length = boxH w4b ∧
    (cropX w4x w4b).length = boxW w4b ∧
    exportLines (slice2 w4vx w4b) (cropX w4x w4b) (cropY w4y w4b)
        (boxW w4b) (boxH w4b) =
      some (headerLines (boxW w4b) (boxH w4b) ++
        List.zipWith (fun p v => p ++ " " ++ v)
          (axisLines (cropX w4x w4b) (cropY w4y w4b)
            (boxW w4b) (boxH w4b))
          (valueLines (slice2 w4vx w4b) (boxW w4b) (boxH w4b))) ∧
    exportLines (slice2 w4vy w4b) (cropX w4x w4b) (cropY w4y w4b)
        (boxW w4b) (boxH w4b) =
      some (headerLines (boxW w4b) (boxH w4b) ++
        List.zipWith (fun p v => p ++ " " ++ v)
          (axisLines (cropX w4x w4b) (cropY w4y w4b)
            (boxW w4b) (boxH w4b))
          (valueLines (slice2 w4vy w4b) (boxW w4b) (boxH w4b))) ∧
    exportLines (slice2 w4ex w4b) (cropX w4x w4b) (cropY w4y w4b)
        (boxW w4b) (boxH w4b) =
      some (headerLines (boxW w4b) (boxH w4b) ++
        List.zipWith (fun p v => p ++ " " ++ v)
          (axisLines (cropX w4x w4b) (cropY w4y w4b)
            (boxW w4b) (boxH w4b))
          (valueLines (slice2 w4ex w4b) (boxW w4b) (boxH w4b))) ∧
    exportLines (slice2 w4ey w4b) (cropX w4x w4b) (cropY w4y w4b)
        (boxW w4b) (boxH w4b) =
      some (headerLines (boxW w4b) (boxH w4b) ++
        List.zipWith (fun p v => p ++ " " ++ v)
          (axisLines (cropX w4x w4b) (cropY w4y w4b)
            (boxW w4b) (boxH w4b))
          (valueLines (slice2 w4ey w4b) (boxW w4b) (boxH w4b))) :=
  C4_crop_consistent w4vx w4vy w4ex w4ey w4x w4y 2 2 w4b
    (by decide) (by decide) (by decide) (by decide) rfl rfl (by decide)

/-- C8 round-trip: for every rectangular field with at least one valid
cell (witnessed by a successful margin-0 detection), cropping to the
detected box and re-detecting with margin 0 on the cropped field yields
the full extent of the cropped field: the box
`(0, ny2 - 1, 0, nx2 - 1)` where `(ny2, nx2)` is the cropped shape. -/
theorem C8_roundtrip (A : List (List Int)) (s : Int) (ny nx : Nat)
    (hM : isMatrix A ny nx) (b : BoundingBox)
    (hdet : detect A s 0 = some b) :
    ∃ ny2 nx2 : Nat, 0 < ny2 ∧ 0 < nx2 ∧
      isMatrix (slice2 A b) ny2 nx2 ∧
      detect (slice2 A b) s 0 =
        some ⟨0, (ny2 : Int) - 1, 0, (nx2 : Int) - 1⟩ := by
  obtain ⟨i0, i1, j0, j1, hl0, hg1, hl2, hg3, e1, e2, e3, e4⟩ :=
    detect_char hdet
  have hbi : b.i_min = (i0 : Int) := by rw [e1]; ring
  have hbI : b.i_max = (i1 : Int) := by rw [e2]; ring
  have hbj : b.j_min = (j0 : Int) := by rw [e3]; ring
  have hbJ : b.j_max = (j1 : Int) := by rw [e4]; ring
  have hi0i1 : i0 ≤ i1 := hl0.2 hg1.1
  have hj0j1 : j0 ≤ j1 := hl2.2 hg3.1
  have hi1ny : i1 < ny := by
    obtain ⟨j, hj⟩ := hg1.1
    have hlt := validAt_lt_length hj
    rw [hM.1] at hlt
    exact hlt
  have hj1nx : j1 < nx := by
    obtain ⟨i, hi⟩ := hg3.1
    have h1 := validAt_lt_rowLength hi
    have h2 := validAt_lt_length hi
    rw [isMatrix_getD_length hM (hM.1 ▸ h2)] at h1
    exact h1
  have hshape := slice2_shape_nat hM hbi hbI hbj hbJ hi0i1 hi1ny hj0j1
    hj1nx
  refine ⟨i1 + 1 - i0, j1 + 1 - j0, by omega, by omega, hshape, ?_⟩
  have hV := fun i j => validAt_slice2_nat hM hbi hbI hbj hbJ hi0i1 hi1ny
    hj0j1 hj1nx i j (s := s)
  obtain ⟨jw, hjw⟩ := hl0.1
  have hjwlb : j0 ≤ jw := hl2.2 ⟨i0, hjw⟩
  have hjwub : jw ≤ j1 := hg3.2 ⟨i0, hjw⟩
  have hrow0 : RowValid (slice2 A b) s 0 := by
    refine ⟨jw - j0, (hV 0 (jw - j0)).mpr ⟨by omega, by omega, ?_⟩⟩
    rw [show i0 + 0 = i0 from rfl,
      show j0 + (jw - j0) = jw from by omega]
    exact hjw
  obtain ⟨jz, hjz⟩ := hg1.1
  have hjzlb : j0 ≤ jz := hl2.2 ⟨i1, hjz⟩
  have hjzub : jz ≤ j1 := hg3.2 ⟨i1, hjz⟩
  have hrowT : RowValid (slice2 A b) s (i1 - i0) := by
    refine ⟨jz - j0, (hV (i1 - i0) (jz - j0)).mpr
      ⟨by omega, by omega, ?_⟩⟩
    rw [show i0 + (i1 - i0) = i1 from by omega,
      show j0 + (jz - j0) = jz from by omega]
    exact hjz
  obtain ⟨iw, hiw⟩ := hl2.1
  have hiwlb : i0 ≤ iw := hl0.2 ⟨j0, hiw⟩
  have hiwub : iw ≤ i1 := hg1.2 ⟨j0, hiw⟩
  have hcol0 : ColValid (slice2 A b) s 0 := by
    refine ⟨iw - i0, (hV (iw - i0) 0).mpr ⟨by omega, by omega, ?_⟩⟩
    rw [show i0 + (iw - i0) = iw from by omega,
      show j0 + 0 = j0 from rfl]
    exact hiw
  obtain ⟨iz, hiz⟩ := hg3.1
  have hizlb : i0 ≤ iz := hl0.2 ⟨j1, hiz⟩
  have hizub : iz ≤ i1 := hg1.2 ⟨j1, hiz⟩
  have hcolT : ColValid (slice2 A b) s (j1 - j0) := by
    refine ⟨iz - i0, (hV (iz - i0) (j1 - j0)).mpr
      ⟨by omega, by omega, ?_⟩⟩
    rw [show i0 + (iz - i0) = iz from by omega,
      show j0 + (j1 - j0) = j1 from by omega]
    exact hiz
  have hrowub : ∀ i, RowValid (slice2 A b) s i → i ≤ i1 - i0 := by
    rintro i ⟨j, hij⟩
    have h1 := ((hV i j).mp hij).1
    omega
  have hcolub : ∀ j, ColValid (slice2 A b) s j → j ≤ j1 - j0 := by
    rintro j ⟨i, hij⟩
    have h1 := ((hV i j).mp hij).2.1
    omega
  have hdet2 := detect_eq_of_bounds (slice2 A b) s 0 0 (i1 - i0) 0
    (j1 - j0)
    ⟨hrow0, fun i _ => Nat.zero_le i⟩
    ⟨hrowT, fun i hi => hrowub i hi⟩
    ⟨hcol0, fun j _ => Nat.zero_le j⟩
    ⟨hcolT, fun j hj => hcolub j hj⟩
  rw [hdet2]
  simp only [Option.some.injEq, BoundingBox.mk.injEq]
  refine ⟨by omega, by omega, by omega, by omega⟩

/-- Witness for C8 on a concrete 2 × 2 field with valid cells at `(0, 1)`
and `(1, 0)`, whose margin-0 box is the full field. -/
theorem C8_roundtrip_witness :
    ∃ ny2 nx2 : Nat, 0 < ny2 ∧ 0 < nx2 ∧
      isMatrix (slice2 [[sentinel, 8], [9, sentinel]] ⟨0, 1, 0, 1⟩)
        ny2 nx2 ∧
      detect (slice2 [[sentinel, 8], [9, sentinel]] ⟨0, 1, 0, 1⟩)
          sentinel 0 =
        some ⟨0, (ny2 : Int) - 1, 0, (nx2 : Int) - 1⟩ :=
  C8_roundtrip [[sentinel, 8], [9, sentinel]] sentinel 2 2 (by decide)
    ⟨0, 1, 0, 1⟩ (by decide)

/-- Concrete 5 × 5 velocity-x field for the C6 counterexample: one valid
cell at `(2, 2)`, so that the margin-2 box is the full 5 × 5 extent. -/
def w6vx : List (List Int) :=
  [[sentinel, sentinel, sentinel, sentinel, sentinel],
   [sentinel, sentinel, sentinel, sentinel, sentinel],
   [sentinel, sentinel, 1, sentinel, sentinel],
   [sentinel, sentinel, sentinel, sentinel, sentinel],
   [sentinel, sentinel, sentinel, sentinel, sentinel]]

/-- Concrete 6 × 6 velocity-y field for the C6 counterexample: its
pre-crop shape disagrees with the 5 × 5 shape of the other fields. -/
def w6vy : List (List Int) :=
  [[2, 2, 2, 2, 2, 2], [2, 2, 2, 2, 2, 2], [2, 2, 2, 2, 2, 2],
   [2, 2, 2, 2, 2, 2], [2, 2, 2, 2, 2, 2], [2, 2, 2, 2, 2, 2]]

/-- Concrete 5 × 5 error field for the C6 counterexample. -/
def w6e : List (List Int) :=
  [[3, 3, 3, 3, 3], [3, 3, 3, 3, 3], [3, 3, 3, 3, 3],
   [3, 3, 3, 3, 3], [3, 3, 3, 3, 3]]

/-- Concrete length-5 axis for the C6 counterexample. -/
def w6axis : List Int := [0, 1, 2, 3, 4]

/-- C6 counterexample: the four co-registered fields do NOT share one
pre-crop shape (velocity-y is 6 × 6 while the others are 5 × 5), yet the
whole velocity step — detection, crop of all four fields, and all four
exports — succeeds: no `ShapeMismatch` failure exists anywhere in the
code, which slices each field independently. -/
theorem C6_no_shape_check_counterexample :
    isMatrix w6vx 5 5 ∧ ¬ isMatrix w6vy 5 5 ∧
    (velocityStep w6vx w6vy w6e w6e w6axis w6axis).isSome = true := by
  decide

/-- C6 amended: the crop performs no shape validation at all — the four
fields are sliced independently by the same box, and mismatched pre-crop
shapes never produce a dedicated failure at the crop stage; whenever the
velocity step fails, the failure is either the empty-dataset error at
detection or an out-of-range index error in one of the four exports. -/
theorem C6_failure_sources (vx vy ex ey : List (List Int))
    (x y : List Int) (h : velocityStep vx vy ex ey x y = none) :
    detect vx sentinel 2 = none ∨
    ∃ b, detect vx sentinel 2 = some b ∧
      (exportLines (slice2 vx b) (cropX x b) (cropY y b)
          (boxW b) (boxH b) = none ∨
       exportLines (slice2 vy b) (cropX x b) (cropY y b)
          (boxW b) (boxH b) = none ∨
       exportLines (slice2 ex b) (cropX x b) (cropY y b)
          (boxW b) (boxH b) = none ∨
       exportLines (slice2 ey b) (cropX x b) (cropY y b)
          (boxW b) (boxH b) = none) := by
  cases hd : detect vx sentinel 2 with
  | none => exact Or.inl rfl
  | some b =>
  refine Or.inr ⟨b, rfl, ?_⟩
  cases h1 : exportLines (slice2 vx b) (cropX x b) (cropY y b)
      (boxW b) (boxH b) with
  | none => exact Or.inl rfl
  | some lu =>
  cases h2 : exportLines (slice2 vy b) (cropX x b) (cropY y b)
      (boxW b) (boxH b) with
  | none => exact Or.inr (Or.inl rfl)
  | some lv =>
  cases h3 : exportLines (slice2 ex b) (cropX x b) (cropY y b)
      (boxW b) (boxH b) with
  | none => exact Or.inr (Or.inr (Or.inl rfl))
  | some leu =>
  cases h4 : exportLines (slice2 ey b) (cropX x b) (cropY y b)
      (boxW b) (boxH b) with
  | none => exact Or.inr (Or.inr (Or.inr rfl))
  | some lev =>
  exfalso
  unfold velocityStep at h
  simp [hd, h1, h2, h3, h4] at h

/-- Witness for the C6 amended theorem: an all-sentinel velocity-x field
makes the step fail, and the failure is indeed the detection failure. -/
theorem C6_failure_sources_witness :
    detect [[sentinel]] sentinel 2 = none ∨
    ∃ b, detect [[sentinel]] sentinel 2 = some b ∧
      (exportLines (slice2 [[sentinel]] b) (cropX [0] b) (cropY [0] b)
          (boxW b) (boxH b) = none ∨
       exportLines (slice2 [[sentinel]] b) (cropX [0] b) (cropY [0] b)
          (boxW b) (boxH b) = none ∨
       exportLines (slice2 [[sentinel]] b) (cropX [0] b) (cropY [0] b)
          (boxW b) (boxH b) = none ∨
       exportLines (slice2 [[sentinel]] b) (cropX [0] b) (cropY [0] b)
          (boxW b) (boxH b) = none) :=
  C6_failure_sources [[sentinel]] [[sentinel]] [[sentinel]] [[sentinel]]
    [0] [0] (by decide)

/-- Witness for C3 on a concrete 2 × 2 field with 2-element axes. -/
theorem C3_export_format_witness :
    exportLines [[1, 2], [3, 4]] [10, 20] [5, 6] 2 2 =
      some (exportSpecLines [[1, 2], [3, 4]] [10, 20] [5, 6] 2 2) ∧
    (exportSpecLines [[1, 2], [3, 4]] [10, 20] [5, 6] 2 2).length =
      2 + 2 * 2 :=
  C3_export_format [[1, 2], [3, 4]] [10, 20] [5, 6] 2 2 rfl rfl
    (by decide)

end MakeDems

namespace SifTemplate

/-- Text of the template of `sif_template.py` that precedes the
regularization substitution point (the first placeholder of the template). -/
def sifPart0 : String :=
"
check keywords warn

! name of the run used for the outputs
$name=\"Robin_Beta\"


! Regularization parameter
$Lambda="

/-- Text between the regularization and the glacier-name substitution
points. -/
def sifPart1 : String :=
"

!some constants
$yearinsec = 365.25*24*60*60
$rhoi = 917.0/(1.0e6*yearinsec^2)  ! MPa - a - m
$gravity = -9.81*yearinsec^2


Header
  Mesh DB \"elmer\" \""

/-- Text between the glacier-name and the max-iterations substitution
points. -/
def sifPart2 : String :=
"3d\"
End


!!!!!!!!!!!!!!!!!!!!!!!!!!!!!!!!!!!!!!!
Simulation
  Coordinate System  = Cartesian 3D
  Simulation Type = Steady State

  Output Intervals = 1

  Steady State Max Iterations = "

/-- Text of the template following the max-iterations substitution
point. -/
def sifPart3 : String :=
"
  Steady State Min Iterations = 1

  Output File = \"Test_$name\".result\"
  Post File = \"Test_$name\".ep\"

  Initialize Dirichlet Conditions = Logical False

  max output level = 3
End
!!!!!!!!!!!!!!!!!!!!!!!!!!!!!!!!!!!!!!!

! Main ice body
Body 1
  Equation = 1
  Body Force = 1
  Material = 1
  Initial Condition = 1
End

! lower surface
Body 2
  Equation = 2
  Body Force = 1
  Material = 1
  Initial Condition = 1
End

!!!!!!!!!!!!!!!!!!!!!!!!!!!!!!!!!!!!!!!
Initial Condition 1
  MuS = Variable coordinate 1
      Real procedure \"lib/Init.so\" \"muIni\"

! initial guess for (square root) slip coeff.
  Beta = Variable Coordinate 1
      Real procedure \"lib/Init.so\" \"betaIni\"

  Pressure = Real 0.0
  Velocity 1 = Real 0.0
  Velocity 2 = Real 0.0
  Velocity 3 = Real 0.0

  VeloD 1 = Real 0.0
  VeloD 2 = Real 0.0
  VeloD 3 = Real 0.0
  VeloD 4 = Real 0.0

! Surface velocities (data)
  Vsurfini 1 = Variable Coordinate 1
     Real procedure \"lib/Init.so\" \"USIni\"
  Vsurfini 2 = Variable Coordinate 1
     Real procedure \"lib/Init.so\" \"VSIni\"
End


!!!!!!!!!!!!!!!!!!!!!!!!!!!!!!!!!!!!!!!
Body Force 1
  Flow BodyForce 1 = Real 0.0
  Flow BodyForce 2 = Real 0.0
  Flow BodyForce 3 = Real $gravity
End


!!!!!!!!!!!!!!!!!!!!!!!!!!!!!!!!!!!!!!!
!! ice material properties in MPa - m - a system
Material 1
  Density = Real $rhoi
  Viscosity Model = String \"power law\"

  Viscosity = Equals MuS

  Viscosity Exponent = Real $1.0e00/3.0e00
  Critical Shear Rate = Real 1.0e-10
End

!!!! Navier-Stokes Solution
Solver 1
  Equation = \"Navier-Stokes\"

  Stabilize = logical True
  flow model = Stokes

  Linear System Solver = Direct
  Linear System Direct Method =  mumps
  mumps percentage increase working space = integer 60
  !Linear System Solver = Iterative
  ! Linear System Iterative Method = GMRES
  ! Linear System GMRES Restart = 100
  ! Linear System Preconditioning= ILU2
  ! Linear System Convergence Tolerance= 1.0e-08
  ! Linear System Max Iterations = 1000

!
  Nonlinear System Max Iterations = Integer 100
  Nonlinear System Convergence Tolerance  = Real 1.0e-7
  Nonlinear System Newton After Iterations = Integer 10
  Nonlinear System Newton After Tolerance = Real 1.0e-03
  Nonlinear System Relaxation Factor = Real 1.0

  Nonlinear System Reset Newton = Logical True

  Steady State Convergence Tolerance = Real 1.0e-12

! Define  some usefull Variables
  Exported Variable 1 = MuS
  Exported Variable 1 DOFS = 1

! square root of the slip coef
  Exported Variable 2 = Beta
  Exported Variable 2 DOFS = Integer 1
! derivative of the cost fn wr to beta
  Exported Variable 3 = DJDBeta
  Exported Variable 3 DOFS = Integer 1
! value of the cost function
  Exported Variable 4 = CostValue
  Exported Variable 4 DOFS = Integer 1

  Exported Variable 5 = VsurfIni
  Exported Variable 5 DOFS = Integer 2

End

!!!! Navier-Stokes = Dirichlet Problem
Solver 2
  Equation = \"NS-Dirichlet\"

  Variable = VeloD
  Variable Dofs = 4

  procedure = \"FlowSolve\" \"FlowSolver\"

  Linear System Solver = Direct
  Linear System Direct Method = mumps
  mumps percentage increase working space = integer 60
  !Linear System Solver = Iterative
  ! Linear System Iterative Method = GMRES
  ! Linear System GMRES Restart = 100
  ! Linear System Preconditioning= ILU2
  ! Linear System Convergence Tolerance= 1.0e-08
  ! Linear System Max Iterations = 1000


  Nonlinear System Max Iterations = Integer 100
  Nonlinear System Convergence Tolerance  = Real 1.0e-7
  Nonlinear System Newton After Iterations = Integer 10
  Nonlinear System Newton After Tolerance = Real 1.0e-03
  Nonlinear System Relaxation Factor = Real 1.0

  Nonlinear System Reset Newton = Logical True

  Steady State Convergence Tolerance = Real 1.0e-12
End

!!! Compute Cost function
Solver 3

  Equation = \"Cost\"

!!  Solver need to be associated => Define dumy variable
  Variable = -nooutput \"CostV\"
  Variable DOFs = 1

  procedure = \"../elmerfem/elmerice/ElmerIceSolvers\" \"CostSolver_Robin\"


  Cost Variable Name = String \"CostValue\"  ! Name of Cost Variable

  Neumann Solution Name = String \"Flow Solution\"
  Dirichlet Solution Name = String \"VeloD\"

  Optimized Variable Name = String \"Beta\"  ! Name of Beta for Regularization
  Lambda = Real  $Lambda                   ! Regularization Coef

  Cost Filename = File \"Cost_$name\".dat\"   ! save the cost as a function of iterations
end

!!!!!  Compute Derivative of Cost function / Beta
Solver 4
  Equation = \"DJDBeta\"

!!  Solver need to be associated => Define dumy variable
  Variable = -nooutput \"DJDB\"
  Variable DOFs = 1

  procedure = \"../elmerfem/elmerice/ElmerIceSolvers\" \"DJDBeta_Robin\"

  Neumann Solution Name = String \"Flow Solution\"
  Dirichlet Solution Name = String \"VeloD\"
  Optimized Variable Name = String \"Beta\"  ! Name of Beta variable
  Gradient Variable Name = String \"DJDBeta\"   ! Name of gradient variable
  PowerFormulation = Logical False
  Beta2Formulation = Logical True        ! SlipCoef define as Beta^2

  Lambda = Real  $Lambda                   ! Regularization Coef
end

!!!!! Optimization procedure
Solver 5
  Equation = \"Optimize_m1qn3\"

!!  Solver need to be associated => Define dumy variable
  Variable = -nooutput \"UB\"
  Variable DOFs = 1

  procedure = \"../elmerfem/elmerice/ElmerIceSolvers\" \"Optimize_m1qn3Parallel\"

  Cost Variable Name = String \"CostValue\"
  Optimized Variable Name = String \"Beta\"
  Gradient Variable Name = String \"DJDBeta\"
  gradient Norm File = String \"GradientNormAdjoint_$name\".dat\"


! M1QN3 Parameters
  M1QN3 dxmin = Real 1.0e-10
  M1QN3 epsg = Real  1.e-6
  M1QN3 niter = Integer 200
  M1QN3 nsim = Integer 200
  M1QN3 impres = Integer 5
  M1QN3 DIS Mode = Logical False
  M1QN3 df1 = Real 0.5
  M1QN3 normtype = String \"dfn\"
  M1QN3 OutputFile = File  \"M1QN3_$name\".out\"
  M1QN3 ndz = Integer 20

end

Solver 6
  Equation = \"ResultOutput\"

  Procedure = File \"ResultOutputSolve\" \"ResultOutputSolver\"

  Output File Name  = string \"Output_$name\"\"
  Vtu Format = logical true
  Binary Output = True
  Single Precision = True

End


!!!!!!!!!!!!!!!!!!!!!!!!!!!!!!!!!!!!!!
Equation 1
  Active Solvers (4)= 1 2 3 6
  NS Convect= False
End

Equation 2
 Active Solvers (2)=  4 5
End

!!!!!!!!!!!!!!!!!!!!!!!!!!!!!!!!!!!!!!
Boundary Condition 1
  Name = \"Side Walls\"
  Target Boundaries(2) = 4 6

  Velocity 1 = Variable Coordinate 1
    Real procedure \"lib/Init.so\" \"UWa\"
  Velocity 2 = Variable Coordinate 1
    Real procedure \"lib/Init.so\" \"VWa\"


  VeloD 1 = Variable Coordinate 1
    Real procedure \"lib/Init.so\" \"UWa\"
  VeloD 2 = Variable Coordinate 1
    Real procedure \"lib/Init.so\" \"VWa\"

End


Boundary Condition 2
  Name = \"Inflow and Outflow\"
  Target Boundaries(3) = 3 5 7

! Dirichlet BCs
  Velocity 1 = Variable Coordinate 1
    Real procedure \"lib/Init.so\" \"UWa\"
  Velocity 2 = Variable Coordinate 1
    Real procedure \"lib/Init.so\" \"VWa\"

!Dirichlet BC => Same Dirichlet
  VeloD 1 = Variable Coordinate 1
    Real procedure \"lib/Init.so\" \"UWa\"
  VeloD 2 = Variable Coordinate 1
    Real procedure \"lib/Init.so\" \"VWa\"
End


Boundary Condition 3
  !Name= \"bed\" mandatory to compute regularistaion term of the cost function (int (dbeta/dx) 2)
  Name = \"bed\"
  Target Boundaries(1) = 1
  !Body Id used to solve

  Body ID = Integer 2

  Save Line = Logical True

  Normal-Tangential Velocity = Logical True
  Normal-Tangential VeloD = Logical True

  Velocity 1 = Real 0.0e0
  VeloD 1 = Real 0.0e0

  Slip Coefficient 2 = Variable Beta
     REAL MATC \"tx*tx\"

  Slip Coefficient 3 = Variable Beta
     REAL MATC \"tx*tx\"

End

! Upper Surface
Boundary Condition 4
  !Name= \"Surface\" mandatory to compute cost function
  Name = \"Surface\"
  Target Boundaries(1) = 2

  Save Line = Logical True

  ! Dirichlet problem applied observed velocities
  VeloD 1 = Equals  Vsurfini 1
  VeloD 2 = Equals  Vsurfini 2

End

    "


/-- The template of `sif_template.py` (lines 30-381) with its three
parameters substituted at the positions of its placeholders, exactly as
`str.format` does: the regularization at the first, the glacier name at
the second, the iteration count at the third. -/
def sifText (regularization glacier_name max_iterations : String) :
    String :=
  sifPart0 ++ regularization ++ sifPart1 ++ glacier_name ++ sifPart2
    ++ max_iterations ++ sifPart3

/-- `generate_sif_file` of `sif_template.py`: validate the glacier name
against the fixed list (line 23; the `ValueError` of line 24 is modelled
as `Except.error`), choose the default output path when none is given
(line 27; the Python `str.title` method coincides with capitalization on these
one-word names), and render the template.  The numeric parameters arrive
already rendered to text, standing for the `str` conversion that
`str.format` applies to them.  On success the function returns the
destination path and the text written there (lines 383-384). -/
def generate_sif_file (glacier_name : String) (file_name : Option String)
    (regularization max_iterations : String) :
    Except String (String × String) :=
  if ¬ (glacier_name ∈ (["jakobshavn", "helheim", "kangerd"] :
      List String)) then
    Except.error
      ("Glacier name must be either jakobshavn, helheim or kangerd.")
  else
    Except.ok
      (file_name.getD ("elmer/Robin_Beta_" ++ glacier_name.capitalize
          ++ ".sif"),
        sifText regularization glacier_name max_iterations)

/-- Running `generate_sif_file` against a filesystem (path ↦ contents):
the `raise` at line 23-24 of `sif_template.py` happens before
`open(file_name, "w")` at line 383, so on the error path no file is
opened, created, truncated or written; on success the destination file is
created or overwritten with the rendered text.  Returns the raised error
(if any) and the resulting filesystem. -/
def runGenerateSif (fs : String → Option String) (glacier_name : String)
    (file_name : Option String) (regularization max_iterations : String) :
    Option String × (String → Option String) :=
  match generate_sif_file glacier_name file_name regularization
      max_iterations with
  | Except.error e => (some e, fs)
  | Except.ok (dest, text) =>
      (none, fun p => if p = dest then some text else fs p)

/-- C9: `generate_sif_file` fails with the unknown-glacier error exactly
when the glacier name is outside the fixed set
`{jakobshavn, helheim, kangerd}`; in particular `"disko"` fails, and
every name in the set passes validation (no error is possible). -/
theorem C9_unknown_glacier (file_name : Option String)
    (regularization max_iterations : String) :
    (∀ glacier_name : String,
      (∃ e, generate_sif_file glacier_name file_name regularization
          max_iterations = Except.error e) ↔
        glacier_name ∉ (["jakobshavn", "helheim", "kangerd"] :
          List String)) ∧
    (∃ e, generate_sif_file ("disko") file_name regularization
        max_iterations = Except.error e) := by
  constructor
  · intro name
    constructor
    · rintro ⟨e, he⟩ hn
      unfold generate_sif_file at he
      rw [if_neg (not_not_intro hn)] at he
      exact absurd he (by simp)
    · intro hn
      refine ⟨"Glacier name must be either jakobshavn, helheim or kangerd.",
        ?_⟩
      unfold generate_sif_file
      rw [if_pos hn]
  · refine ⟨"Glacier name must be either jakobshavn, helheim or kangerd.",
      ?_⟩
    unfold generate_sif_file
    rw [if_pos (by decide)]

/-- C10: called with a glacier name outside the valid set, the generator
raises before the destination file is ever opened: the error is reported
and the filesystem is completely unchanged (no file created, truncated or
modified on the error path). -/
theorem C10_error_atomicity (fs : String → Option String)
    (glacier_name : String) (file_name : Option String)
    (regularization max_iterations : String)
    (h : glacier_name ∉ (["jakobshavn", "helheim", "kangerd"] :
      List String)) :
    (runGenerateSif fs glacier_name file_name regularization
        max_iterations).1.isSome = true ∧
    (runGenerateSif fs glacier_name file_name regularization
        max_iterations).2 = fs := by
  unfold runGenerateSif generate_sif_file
  rw [if_pos h]
  exact ⟨rfl, rfl⟩

/-- Witness for C10: calling with `"disko"` (the parameters standing for
the defaults `1.0e10` and `50`) over an empty filesystem reports the
error and leaves the filesystem untouched. -/
theorem C10_error_atomicity_witness :
    (runGenerateSif (fun _ => none) ("disko") none ("10000000000.0")
        ("50")).1.isSome = true ∧
    (runGenerateSif (fun _ => none) ("disko") none ("10000000000.0")
        ("50")).2 = (fun _ => none : String → Option String) :=
  C10_error_atomicity (fun _ => none) ("disko") none ("10000000000.0")
    ("50") (by decide)

end SifTemplate
